import Mathlib

/-!
Verification of the kylfuskofu site-collection pipeline.

The definitions below are a shallow embedding of the Python sources:
  - `src/app.py`        : the PostgreSQL-backed collector (collection loop,
                          existence check, insert, Discord webhook formatting,
                          schema creation/migration);
  - `src/utils.py`      : the Hacker News adapter, the Linkwarden bookmark
                          client, the English-language classifier, and the
                          language-status back-fill;
  - `src/cos_random_db.py` : the SQLite/COS variant of the same loop.

Database tables are modelled as lists of rows; network calls, browser
interaction and randomness are modelled as explicit function parameters
(oracles); a raised Python exception at a call site is modelled as a
distinguished outcome value consumed by the caller that catches it.
-/

/- ===================================================================
   Section 1: the site store and the bounded collection loop
   (src/app.py lines 142-164 and 295-337).
   =================================================================== -/

/-- Row of the `sites` table as used by the collection loop
(`url TEXT UNIQUE, title TEXT, source TEXT`; `capture_date` plays no role
in the loop and is omitted here, it is modelled in Section 6). -/
structure SiteRow where
  url : String
  title : String
  source : String
deriving Repr, DecidableEq

/-- Embedding of `url_exists` (src/app.py lines 142-150): point lookup
`SELECT 1 FROM sites WHERE url = %s` against the store. -/
def url_exists (store : List SiteRow) (url : String) : Bool :=
  store.any (fun r => r.url == url)

/-- Embedding of `add_url_to_db` (src/app.py lines 152-164): `INSERT INTO
sites (url, title, source, capture_date) VALUES (...)`, appending one row. -/
def add_url_to_db (store : List SiteRow) (url title source : String) : List SiteRow :=
  store ++ [⟨url, title, source⟩]

/-- Outcome of one adapter call inside the loop's `try` block:
either a `(url, title)` pair from `get_random_site` / `get_random_indieblog`,
or a raised exception (`except Exception` at src/app.py line 324), which the
loop catches and logs. -/
inductive FetchOutcome where
  | ok (url title : String)
  | exn
deriving Repr, DecidableEq

/-- Result of running the per-source collection loop: the final value of the
`attempts` and `unique_sites_collected` counters, the site store, and the
shared `collected_sites` accumulator. -/
structure LoopResult where
  attempts : Nat
  accepted : Nat
  store : List SiteRow
  collected : List (String × String × String)
deriving Repr, DecidableEq

/-- Embedding of the per-source `while` loop of `collect_ten_unique_sites`
(src/app.py lines 302-327).  `fetch n` is the outcome of the adapter call on
the iteration whose `attempts` counter reads `n`.  The `fuel` argument equals
`max_attempts - attempts`, so the Python condition `attempts < max_attempts`
is exactly `fuel > 0`; `attempts += 1` sits outside the `try`/`except`, so
every iteration, including an exception iteration, consumes one unit. -/
def collect_site_loop (fetch : Nat → FetchOutcome) (source : String) (target : Nat) :
    Nat → Nat → Nat → List SiteRow → List (String × String × String) → LoopResult
  | 0, attempts, accepted, store, collected => ⟨attempts, accepted, store, collected⟩
  | fuel + 1, attempts, accepted, store, collected =>
    if accepted < target then
      match fetch attempts with
      | .exn =>
        collect_site_loop fetch source target fuel (attempts + 1) accepted store collected
      | .ok url title =>
        if url_exists store url then
          collect_site_loop fetch source target fuel (attempts + 1) accepted store collected
        else
          collect_site_loop fetch source target fuel (attempts + 1) (accepted + 1)
            (add_url_to_db store url title source) (collected ++ [(url, title, source)])
    else ⟨attempts, accepted, store, collected⟩

/-- Per-source collection loop started with both counters at zero, as in
src/app.py lines 303-304 (`unique_sites_collected = 0; attempts = 0`). -/
def collect_from_source (fetch : Nat → FetchOutcome) (source : String)
    (target max_attempts : Nat) (store : List SiteRow)
    (collected : List (String × String × String)) : LoopResult :=
  collect_site_loop fetch source target max_attempts 0 0 store collected

/-- Result of a full run of `collect_ten_unique_sites`: the final store, the
run-wide `collected_sites` list, and the payload handed to
`send_discord_webhook`, `none` when the webhook was not invoked. -/
structure RunResult where
  store : List SiteRow
  collected : List (String × String × String)
  webhook_payload : Option (List (String × String × String))
deriving Repr, DecidableEq

/-- Embedding of `collect_ten_unique_sites` (src/app.py lines 295-337): the
two sources run in order with `target = 5` and `max_attempts = 15`, threading
the store and the shared `collected_sites` list, then
`if collected_sites: send_discord_webhook(collected_sites)` (lines 334-335).
`fetch src` is the adapter for source `src`. -/
def collect_ten_unique_sites (fetch : String → Nat → FetchOutcome)
    (store : List SiteRow) : RunResult :=
  let r1 := collect_from_source (fetch "512kb.club") "512kb.club" 5 15 store []
  let r2 := collect_from_source (fetch "indieblog.page") "indieblog.page" 5 15
    r1.store r1.collected
  { store := r2.store
    collected := r2.collected
    webhook_payload := if r2.collected.isEmpty then none else some r2.collected }

/-- Stores produced by a sequence of full collection runs, each run seeing the
store the previous run left behind (the database persists across runs). -/
def collect_runs (fetches : List (String → Nat → FetchOutcome))
    (store : List SiteRow) : List SiteRow :=
  fetches.foldl (fun st f => (collect_ten_unique_sites f st).store) store

/-- Helper: the final `attempts` counter never exceeds the starting counter
plus the remaining fuel, i.e. the loop runs at most `fuel` more iterations. -/
theorem collect_site_loop_attempts_le (fetch : Nat → FetchOutcome) (source : String)
    (target : Nat) :
    ∀ (fuel attempts accepted : Nat) (store : List SiteRow)
      (collected : List (String × String × String)),
      (collect_site_loop fetch source target fuel attempts accepted store collected).attempts
        ≤ attempts + fuel := by
  intro fuel
  induction fuel with
  | zero =>
    intro attempts accepted store collected
    simp [collect_site_loop]
  | succ n ih =>
    intro attempts accepted store collected
    by_cases hacc : accepted < target
    · cases h : fetch attempts with
      | exn =>
        simp only [collect_site_loop, h, if_pos hacc]
        have := ih (attempts + 1) accepted store collected
        omega
      | ok url title =>
        simp only [collect_site_loop, h, if_pos hacc]
        by_cases hex : url_exists store url = true
        · rw [if_pos hex]
          have := ih (attempts + 1) accepted store collected
          omega
        · rw [if_neg hex]
          have := ih (attempts + 1) (accepted + 1)
            (add_url_to_db store url title source) (collected ++ [(url, title, source)])
          omega
    · simp only [collect_site_loop, if_neg hacc]
      omega

/-- Helper: when every candidate the adapter ever produces is already in the
store (or the adapter raises), no iteration changes the store or the
accumulator, and the loop runs its full remaining fuel. -/
theorem collect_site_loop_all_dup (fetch : Nat → FetchOutcome) (source : String)
    (target : Nat) (st0 : List SiteRow)
    (hdup : ∀ n u t, fetch n = FetchOutcome.ok u t → url_exists st0 u = true) :
    ∀ (fuel attempts accepted : Nat)
      (collected : List (String × String × String)),
      accepted < target →
      collect_site_loop fetch source target fuel attempts accepted st0 collected
        = ⟨attempts + fuel, accepted, st0, collected⟩ := by
  intro fuel
  induction fuel with
  | zero =>
    intro attempts accepted collected hacc
    simp [collect_site_loop]
  | succ n ih =>
    intro attempts accepted collected hacc
    cases h : fetch attempts with
    | exn =>
      simp only [collect_site_loop, h, if_pos hacc]
      rw [ih (attempts + 1) accepted collected hacc]
      congr 1
      omega
    | ok url title =>
      have hex := hdup attempts url title h
      simp only [collect_site_loop, h, if_pos hacc, hex]
      rw [if_pos trivial, ih (attempts + 1) accepted collected hacc]
      congr 1
      omega

/-- C2: the loop never runs more than `max_attempts` iterations and always
terminates normally; an adapter exception consumes one unit of the attempt
budget and is absorbed by the loop; and when every produced candidate is a
duplicate (or every call raises) the loop spends the whole budget, accepts
zero records, and leaves the store and accumulator untouched. -/
theorem c2_attempt_bounded_termination :
    (∀ (fetch : Nat → FetchOutcome) (source : String) (target max_attempts : Nat)
        (store : List SiteRow) (collected : List (String × String × String)),
        (collect_from_source fetch source target max_attempts store collected).attempts
          ≤ max_attempts) ∧
    (∀ (fetch : Nat → FetchOutcome) (source : String) (target max_attempts : Nat)
        (store : List SiteRow) (collected : List (String × String × String)),
        (∀ n u t, fetch n = FetchOutcome.ok u t → url_exists store u = true) →
        0 < target →
        collect_from_source fetch source target max_attempts store collected
          = ⟨max_attempts, 0, store, collected⟩) ∧
    (∀ (fetch : Nat → FetchOutcome) (source : String) (target max_attempts : Nat)
        (store : List SiteRow) (collected : List (String × String × String)),
        (∀ n, fetch n = FetchOutcome.exn) →
        0 < target →
        collect_from_source fetch source target max_attempts store collected
          = ⟨max_attempts, 0, store, collected⟩) := by
  refine ⟨?_, ?_, ?_⟩
  · intro fetch source target max_attempts store collected
    have := collect_site_loop_attempts_le fetch source target max_attempts 0 0 store collected
    simpa [collect_from_source] using this
  · intro fetch source target max_attempts store collected hdup htarget
    have := collect_site_loop_all_dup fetch source target store hdup
      max_attempts 0 0 collected htarget
    simpa [collect_from_source] using this
  · intro fetch source target max_attempts store collected hexn htarget
    have hdup : ∀ n u t, fetch n = FetchOutcome.ok u t → url_exists store u = true := by
      intro n u t h
      rw [hexn n] at h
      exact absurd h (by simp)
    have := collect_site_loop_all_dup fetch source target store hdup
      max_attempts 0 0 collected htarget
    simpa [collect_from_source] using this

/-- Witness for C2 at a concrete adapter, store and budget. -/
theorem c2_attempt_bounded_termination_witness :
    (collect_from_source (fun _ => FetchOutcome.exn) "512kb.club" 5 15
        [⟨"https://a.example", "A", "512kb.club"⟩] []).attempts ≤ 15 ∧
    collect_from_source (fun _ => FetchOutcome.ok "https://a.example" "A") "512kb.club" 5 15
        [⟨"https://a.example", "A", "512kb.club"⟩] []
      = ⟨15, 0, [⟨"https://a.example", "A", "512kb.club"⟩], []⟩ ∧
    collect_from_source (fun _ => FetchOutcome.exn) "512kb.club" 5 15
        [⟨"https://a.example", "A", "512kb.club"⟩] []
      = ⟨15, 0, [⟨"https://a.example", "A", "512kb.club"⟩], []⟩ :=
  ⟨c2_attempt_bounded_termination.1 (fun _ => FetchOutcome.exn) "512kb.club" 5 15
      [⟨"https://a.example", "A", "512kb.club"⟩] [],
    c2_attempt_bounded_termination.2.1 (fun _ => FetchOutcome.ok "https://a.example" "A")
      "512kb.club" 5 15 [⟨"https://a.example", "A", "512kb.club"⟩] []
      (by intro n u t h; simp at h; simp [url_exists, h.1]) (by decide),
    c2_attempt_bounded_termination.2.2 (fun _ => FetchOutcome.exn)
      "512kb.club" 5 15 [⟨"https://a.example", "A", "512kb.club"⟩] []
      (fun _ => rfl) (by decide)⟩

/-- Helper: a negative existence check means the url is absent from the
url column of the store. -/
theorem url_exists_false_notin (store : List SiteRow) (u : String)
    (h : url_exists store u = false) : u ∉ store.map SiteRow.url := by
  intro hmem
  rcases List.mem_map.mp hmem with ⟨r, hr, hru⟩
  have hany : store.any (fun r => r.url == u) = true :=
    List.any_eq_true.mpr ⟨r, hr, by simp [hru]⟩
  rw [url_exists, hany] at h
  cases h

/-- Helper: the loop preserves distinctness of the url column, because a row
is inserted only on the branch where `url_exists` just returned false. -/
theorem collect_site_loop_nodup (fetch : Nat → FetchOutcome) (source : String)
    (target : Nat) :
    ∀ (fuel attempts accepted : Nat) (store : List SiteRow)
      (collected : List (String × String × String)),
      (store.map SiteRow.url).Nodup →
      (((collect_site_loop fetch source target fuel attempts accepted store
          collected).store).map SiteRow.url).Nodup := by
  intro fuel
  induction fuel with
  | zero =>
    intro attempts accepted store collected hnd
    simpa [collect_site_loop] using hnd
  | succ n ih =>
    intro attempts accepted store collected hnd
    by_cases hacc : accepted < target
    · cases h : fetch attempts with
      | exn =>
        simp only [collect_site_loop, h, if_pos hacc]
        exact ih _ _ _ _ hnd
      | ok url title =>
        by_cases hex : url_exists store url = true
        · simp only [collect_site_loop, h, if_pos hacc, if_pos hex]
          exact ih _ _ _ _ hnd
        · simp only [collect_site_loop, h, if_pos hacc, if_neg hex]
          apply ih
          have hfalse : url_exists store url = false := by
            revert hex
            cases url_exists store url <;> simp
          have hnotin := url_exists_false_notin store url hfalse
          simp [add_url_to_db, List.nodup_append, hnd, hnotin]
    · simp only [collect_site_loop, if_neg hacc]
      exact hnd

/-- Helper: one full two-source run preserves distinctness of the url
column of the store. -/
theorem collect_ten_unique_sites_nodup (fetch : String → Nat → FetchOutcome)
    (store : List SiteRow) (hnd : (store.map SiteRow.url).Nodup) :
    (((collect_ten_unique_sites fetch store).store).map SiteRow.url).Nodup := by
  simp only [collect_ten_unique_sites, collect_from_source]
  exact collect_site_loop_nodup _ _ _ _ _ _ _ _
    (collect_site_loop_nodup _ _ _ _ _ _ _ _ hnd)

/-- C3: across any sequence of full collection runs, starting from a store
whose url column is duplicate-free, the persisted store never holds two rows
with the same url, whichever adapters produced the candidates: every insert
happens on the branch where the existence check just returned false. -/
theorem c3_url_uniqueness_across_runs (fetches : List (String → Nat → FetchOutcome))
    (store : List SiteRow) (hnd : (store.map SiteRow.url).Nodup) :
    ((collect_runs fetches store).map SiteRow.url).Nodup := by
  induction fetches generalizing store with
  | nil => simpa [collect_runs] using hnd
  | cons f rest ih =>
    have h1 := collect_ten_unique_sites_nodup f store hnd
    have h2 := ih ((collect_ten_unique_sites f store).store) h1
    simpa [collect_runs, List.foldl_cons] using h2

/-- Witness for C3 at a concrete run sequence and seed store. -/
theorem c3_url_uniqueness_across_runs_witness :
    (([⟨"https://a.example", "A", "512kb.club"⟩] :
        List SiteRow).map SiteRow.url).Nodup ∧
    ((collect_runs
        [fun _ n => if n = 0 then FetchOutcome.ok "https://b.example" "B" else FetchOutcome.exn]
        [⟨"https://a.example", "A", "512kb.club"⟩]).map SiteRow.url).Nodup :=
  ⟨by decide,
    c3_url_uniqueness_across_runs
      [fun _ n => if n = 0 then FetchOutcome.ok "https://b.example" "B" else FetchOutcome.exn]
      [⟨"https://a.example", "A", "512kb.club"⟩] (by decide)⟩

/-- C10: a run that accepts zero items posts nothing: the webhook payload of
`collect_ten_unique_sites` is `none` whenever the run-wide accumulator ends
empty, and in particular when every adapter call raises or returns an
already-recorded url. -/
theorem c10_empty_run_skips_webhook (fetch : String → Nat → FetchOutcome)
    (store : List SiteRow) :
    ((collect_ten_unique_sites fetch store).collected = [] →
      (collect_ten_unique_sites fetch store).webhook_payload = none) ∧
    ((∀ src n u t, fetch src n = FetchOutcome.ok u t → url_exists store u = true) →
      (collect_ten_unique_sites fetch store).collected = [] ∧
      (collect_ten_unique_sites fetch store).webhook_payload = none) := by
  constructor
  · intro h
    simp only [collect_ten_unique_sites] at h ⊢
    rw [h]
    simp
  · intro hdup
    have h1 : collect_from_source (fetch "512kb.club") "512kb.club" 5 15 store []
        = ⟨15, 0, store, []⟩ := by
      have := collect_site_loop_all_dup (fetch "512kb.club") "512kb.club" 5 store
        (fun n u t h => hdup "512kb.club" n u t h) 15 0 0 [] (by decide)
      simpa [collect_from_source] using this
    have h2 : collect_from_source (fetch "indieblog.page") "indieblog.page" 5 15 store []
        = ⟨15, 0, store, []⟩ := by
      have := collect_site_loop_all_dup (fetch "indieblog.page") "indieblog.page" 5 store
        (fun n u t h => hdup "indieblog.page" n u t h) 15 0 0 [] (by decide)
      simpa [collect_from_source] using this
    refine ⟨?_, ?_⟩ <;> simp [collect_ten_unique_sites, h1, h2]

/-- Witness for C10 at a concrete always-raising adapter. -/
theorem c10_empty_run_skips_webhook_witness :
    (collect_ten_unique_sites (fun _ _ => FetchOutcome.exn) []).collected = [] ∧
    (collect_ten_unique_sites (fun _ _ => FetchOutcome.exn) []).webhook_payload = none :=
  (c10_empty_run_skips_webhook (fun _ _ => FetchOutcome.exn) []).2
    (fun _ _ _ _ h => FetchOutcome.noConfusion h)

/-- C1: with the store seeded with https://a.example, target 1 and budget 5,
an adapter yielding (https://a.example, "A") then (https://b.example, "B")
makes the loop reject the first candidate (the existence check reports it
present), accept and persist the second, and stop after exactly 2 attempts
with exactly 1 accepted record, for https://b.example. -/
theorem c1_loop_scenario_two_attempts :
    let fetch : Nat → FetchOutcome := fun n =>
      if n = 0 then FetchOutcome.ok "https://a.example" "A"
      else FetchOutcome.ok "https://b.example" "B"
    let store0 : List SiteRow := [⟨"https://a.example", "A", "512kb.club"⟩]
    let res := collect_from_source fetch "512kb.club" 1 5 store0 []
    url_exists store0 "https://a.example" = true ∧
      res.attempts = 2 ∧ res.accepted = 1 ∧
      res.collected = [("https://b.example", "B", "512kb.club")] ∧
      res.store = store0 ++ [⟨"https://b.example", "B", "512kb.club"⟩] := by
  decide

/- ===================================================================
   Section 2: webhook title clean-up (src/app.py lines 249-260).
   Titles are modelled as lists of characters; Python `str.replace` with a
   single-character pattern rewrites every occurrence of that character.
   =================================================================== -/

/-- Characters the webhook formatter escapes: `[`, `]`, `*`, `_`. -/
def isSpecialChar (c : Char) : Bool :=
  c == '[' || c == ']' || c == '*' || c == '_'

/-- Embedding of Python `str.replace(c, rep)` for a one-character pattern
`c`: every occurrence of `c` in the string is replaced by `rep`. -/
def replace_char (s : List Char) (c : Char) (rep : List Char) : List Char :=
  s.flatMap (fun x => if x = c then rep else [x])

/-- Embedding of the escape chain of `send_discord_webhook` (src/app.py
line 256): `title.replace("[", "\\[").replace("]", "\\]").replace("*",
"\\*").replace("_", "\\_")`. -/
def clean_title_escape (t : List Char) : List Char :=
  replace_char (replace_char (replace_char (replace_char t
    '[' ['\\', '[']) ']' ['\\', ']']) '*' ['\\', '*']) '_' ['\\', '_']

/-- Embedding of src/app.py lines 256-258: escape the title, then, when the
escaped form is longer than 50 characters, keep its first 47 characters and
append `...`. -/
def webhook_clean_title (t : List Char) : List Char :=
  let ct := clean_title_escape t
  if ct.length > 50 then ct.take 47 ++ ['.', '.', '.'] else ct

/-- Escape discipline: walking the list with the previous character at hand,
every character drawn from `S` must be immediately preceded by a backslash. -/
def preceded_ok (S : List Char) : Char → List Char → Bool
  | _, [] => true
  | prev, c :: rest => (!(S.contains c) || (prev == '\\')) && preceded_ok S c rest

/-- Helper: the discipline is vacuous for an empty character set. -/
theorem preceded_ok_nilS : ∀ (l : List Char) (prev : Char),
    preceded_ok [] prev l = true := by
  intro l
  induction l with
  | nil => intro prev; rfl
  | cons c rest ih => intro prev; simp [preceded_ok, ih]

/-- Helper: replacing every `c` by `\c` extends the discipline from `S` to
`c :: S`, provided `c` is not the backslash and `S` holds no backslash.
The last character of the image of any input character is that character
itself, so the previous-character argument threads through unchanged. -/
theorem preceded_ok_replace (c : Char) (S : List Char) (hc : (c == '\\') = false)
    (hS : S.contains '\\' = false) :
    ∀ (l : List Char) (prev : Char), preceded_ok S prev l = true →
      preceded_ok (c :: S) prev (replace_char l c ['\\', c]) = true := by
  intro l
  induction l with
  | nil => intro prev _; rfl
  | cons x rest ih =>
    intro prev h
    simp only [preceded_ok, Bool.and_eq_true] at h
    by_cases hxc : x = c
    · subst hxc
      simp only [replace_char, List.flatMap_cons, if_pos rfl]
      simp only [preceded_ok, List.contains_cons, Bool.and_eq_true]
      refine ⟨?_, ?_, ?_⟩
      · have hS' : ('\\' : Char) ∉ S := by simpa using hS
        have hc' : ¬ (('\\' : Char) = x) := fun hba => by
          rw [← hba] at hc
          simp at hc
        simp [hS', hc']
      · simp
      · exact ih x h.2
    · simp only [replace_char, List.flatMap_cons, if_neg hxc]
      simp only [preceded_ok, List.contains_cons, Bool.and_eq_true]
      constructor
      · rcases Bool.or_eq_true_iff.mp h.1 with h1 | h1
        · have hx' : x ∉ S := by
            have hx0 : S.contains x = false := by
              revert h1
              cases S.contains x <;> simp
            simpa using hx0
          simp [hx', hxc]
        · simp [show prev = '\\' by simpa using h1]
      · exact ih x h.2

/-- Helper: the discipline survives taking a prefix, because a kept special
character keeps its (earlier) preceding backslash. -/
theorem preceded_ok_take (S : List Char) :
    ∀ (l : List Char) (prev : Char) (n : Nat), preceded_ok S prev l = true →
      preceded_ok S prev (l.take n) = true := by
  intro l
  induction l with
  | nil => intro prev n _; simp [preceded_ok]
  | cons c rest ih =>
    intro prev n h
    cases n with
    | zero => rfl
    | succ m =>
      simp only [preceded_ok, Bool.and_eq_true] at h
      simp only [List.take_succ_cons, preceded_ok, Bool.and_eq_true]
      exact ⟨h.1, ih c m h.2⟩

/-- Helper: a list with no character from `S` satisfies the discipline. -/
theorem preceded_ok_of_no_special (S : List Char) :
    ∀ (m : List Char), (∀ c ∈ m, S.contains c = false) →
      ∀ prev, preceded_ok S prev m = true := by
  intro m
  induction m with
  | nil => intro _ prev; rfl
  | cons c rest ih =>
    intro h prev
    simp only [preceded_ok, Bool.and_eq_true]
    refine ⟨?_, ih (fun d hd => h d (List.mem_cons_of_mem c hd)) c⟩
    have hc' : c ∉ S := by simpa using h c (List.mem_cons_self c rest)
    simp [hc']

/-- Helper: appending special-free characters keeps the discipline. -/
theorem preceded_ok_append (S : List Char) :
    ∀ (l m : List Char) (prev : Char), preceded_ok S prev l = true →
      (∀ c ∈ m, S.contains c = false) →
      preceded_ok S prev (l ++ m) = true := by
  intro l
  induction l with
  | nil => intro m prev _ hm; simpa using preceded_ok_of_no_special S m hm prev
  | cons c rest ih =>
    intro m prev h hm
    simp only [preceded_ok, Bool.and_eq_true] at h
    simp only [List.cons_append, preceded_ok, Bool.and_eq_true]
    exact ⟨h.1, ih m c h.2 hm⟩

/-- Helper: reading the discipline positionally, with an out-of-range default
that is not in `S`: a character from `S` found at index `i` forces `0 < i`
and a backslash at index `i - 1`, unless it sat at index 0 with a backslash
as the virtual previous character. -/
theorem preceded_ok_getD (S : List Char) (hsp : S.contains ' ' = false) :
    ∀ (l : List Char) (prev : Char), preceded_ok S prev l = true →
      ∀ i, S.contains (l.getD i ' ') = true →
        (0 < i ∧ l.getD (i - 1) ' ' = '\\') ∨ (i = 0 ∧ prev = '\\') := by
  intro l
  induction l with
  | nil =>
    intro prev _ i hi
    rw [List.getD] at hi
    simp only [List.get?_nil] at hi
    rw [Option.getD_none] at hi
    rw [hi] at hsp
    cases hsp
  | cons c rest ih =>
    intro prev h i hi
    simp only [preceded_ok, Bool.and_eq_true] at h
    cases i with
    | zero =>
      right
      refine ⟨rfl, ?_⟩
      simp only [List.getD_cons_zero] at hi
      rcases Bool.or_eq_true_iff.mp h.1 with h1 | h1
      · rw [hi] at h1
        simp at h1
      · simpa using h1
    | succ j =>
      simp only [List.getD_cons_succ] at hi
      rcases ih c h.2 j hi with h2 | h2
      · left
        refine ⟨Nat.succ_pos j, ?_⟩
        obtain ⟨k, rfl⟩ := Nat.exists_eq_succ_of_ne_zero (Nat.pos_iff_ne_zero.mp h2.1)
        simpa [List.getD_cons_succ] using h2.2
      · left
        refine ⟨Nat.succ_pos j, ?_⟩
        rw [h2.1]
        simpa [List.getD_cons_zero] using h2.2

/-- Helper: membership in the special-character list agrees with
`isSpecialChar`. -/
theorem contains_specials_eq (c : Char) :
    (['_', '*', ']', '['] : List Char).contains c = isSpecialChar c := by
  simp only [isSpecialChar, List.contains_cons, List.contains_nil, Bool.or_false]
  cases h1 : c == '[' <;> cases h2 : c == ']' <;> cases h3 : c == '*'
    <;> cases h4 : c == '_' <;> simp [h1, h2, h3, h4]

/-- C8: in the formatted webhook title, every occurrence of `[`, `]`, `*`
or `_` is preceded by a backslash (so none of the four reaches the markdown
unescaped), and a title whose escaped form exceeds 50 characters is cut to
its first 47 characters followed by `...`. -/
theorem c8_webhook_title_escaped (title : List Char) :
    (∀ i, isSpecialChar ((webhook_clean_title title).getD i ' ') = true →
        0 < i ∧ (webhook_clean_title title).getD (i - 1) ' ' = '\\') ∧
    ((clean_title_escape title).length > 50 →
        webhook_clean_title title =
          (clean_title_escape title).take 47 ++ ['.', '.', '.']) := by
  have h0 := preceded_ok_nilS title ' '
  have h1 := preceded_ok_replace '[' [] (by decide) (by decide) title ' ' h0
  have h2 := preceded_ok_replace ']' ['['] (by decide) (by decide) _ ' ' h1
  have h3 := preceded_ok_replace '*' [']', '['] (by decide) (by decide) _ ' ' h2
  have h4 : preceded_ok ['_', '*', ']', '['] ' ' (clean_title_escape title) = true :=
    preceded_ok_replace '_' ['*', ']', '['] (by decide) (by decide) _ ' ' h3
  have hout : preceded_ok ['_', '*', ']', '['] ' ' (webhook_clean_title title) = true := by
    simp only [webhook_clean_title]
    split
    · exact preceded_ok_append _ _ _ _ (preceded_ok_take _ _ _ _ h4) (by decide)
    · exact h4
  constructor
  · intro i hi
    have hi' : (['_', '*', ']', '['] : List Char).contains
        ((webhook_clean_title title).getD i ' ') = true := by
      rw [contains_specials_eq]
      exact hi
    rcases preceded_ok_getD _ (by decide) _ _ hout i hi' with h | h
    · exact h
    · exact absurd h.2 (by decide)
  · intro hlen
    simp only [webhook_clean_title]
    rw [if_pos hlen]

/-- Witness for C8: a short title with a bracket, checked at the bracket's
position, and a long title hitting the truncation branch. -/
theorem c8_webhook_title_escaped_witness :
    (isSpecialChar ((webhook_clean_title ['[', 'a', 'b']).getD 1 ' ') = true ∧
      0 < 1 ∧ (webhook_clean_title ['[', 'a', 'b']).getD 0 ' ' = '\\') ∧
    ((clean_title_escape (List.replicate 60 'a')).length > 50 ∧
      webhook_clean_title (List.replicate 60 'a') =
        (clean_title_escape (List.replicate 60 'a')).take 47 ++ ['.', '.', '.']) :=
  ⟨⟨by decide, (c8_webhook_title_escaped ['[', 'a', 'b']).1 1 (by decide)⟩,
    ⟨by decide, (c8_webhook_title_escaped (List.replicate 60 'a')).2 (by decide)⟩⟩

/- ===================================================================
   Section 3: Hacker News adapter
   (src/utils.py lines 105-132 and 465-521).
   =================================================================== -/

/-- Presence and value of a field in a decoded JSON item: the key can be
absent from the dictionary, present with a null value, or present with a
string value.  `"url" not in story` is exactly `absent`. -/
inductive JsonField where
  | absent
  | null
  | val (s : String)
deriving Repr, DecidableEq

/-- Value of Python `story.get(key)`: `none` for an absent key or a null
value. -/
def JsonField.get : JsonField → Option String
  | .absent => none
  | .null => none
  | .val s => some s

/-- Python truthiness of an optional string: `None` and the empty string are
falsy. -/
def optTruthy : Option String → Bool
  | none => false
  | some s => !(s == "")

/-- Hacker News item as decoded from the item endpoint: only the two fields
the adapter reads. -/
structure HNItem where
  url : JsonField
  title : JsonField
deriving Repr, DecidableEq

/-- Embedding of `get_hackernews_story_details` (src/utils.py lines
105-132).  `items id` is the decoded response body for item `id` (`none`
when the request raised or the body was falsy); a story whose `url` or
`title` key is absent is mapped to `None` ("Story ... is missing URL or
title", line 125-127). -/
def get_hackernews_story_details (items : Nat → Option HNItem) (story_id : Nat) :
    Option HNItem :=
  match items story_id with
  | none => none
  | some story =>
    if story.url = JsonField.absent ∨ story.title = JsonField.absent then none
    else some story

/-- Synthesized link to the item's own Hacker News page
(src/utils.py line 505). -/
def hn_item_link (story_id : Nat) : String :=
  "https://news.ycombinator.com/item?id=" ++ toString story_id

/-- Existence filter threaded through the adapters: `none` models passing
`url_exists_func=None`, in which case every url passes. -/
def exists_check (f : Option (String → Bool)) (url : String) : Bool :=
  match f with
  | none => false
  | some g => g url

/-- Embedding of the story loop of `get_hackernews_stories_by_type`
(src/utils.py lines 489-514): walk the ids in order, stop once `count`
stories are gathered, skip ids the detail fetch mapped to `None`, replace a
falsy url value by the item's own page link, skip stories with a falsy
title, and skip urls the existence check reports present. -/
def hn_story_loop (items : Nat → Option HNItem) (source : String) (count : Nat)
    (exf : Option (String → Bool)) :
    List Nat → List (String × String × String) → List (String × String × String)
  | [], stories => stories
  | story_id :: rest, stories =>
    if count ≤ stories.length then stories
    else
      match get_hackernews_story_details items story_id with
      | none => hn_story_loop items source count exf rest stories
      | some story =>
        let url0 := story.url.get
        let title0 := story.title.get
        let url := if optTruthy url0 then url0.getD "" else hn_item_link story_id
        if optTruthy title0 then
          if exists_check exf url then
            hn_story_loop items source count exf rest stories
          else
            hn_story_loop items source count exf rest
              (stories ++ [(url, title0.getD "", source)])
        else
          hn_story_loop items source count exf rest stories

/-- Embedding of `get_hackernews_stories_by_type` (src/utils.py lines
465-521): an unknown story type yields `[]` (line 478-480); otherwise the
id list returned by the listing endpoint is cut to `count * 2` entries
(line 487) and walked by the story loop under source tag
`hackernews-<type>`. -/
def get_hackernews_stories_by_type (items : Nat → Option HNItem)
    (story_ids : List Nat) (story_type : String) (count : Nat)
    (exf : Option (String → Bool)) : List (String × String × String) :=
  if story_type = "show" ∨ story_type = "new" ∨ story_type = "top" then
    hn_story_loop items ("hackernews-" ++ story_type) count exf
      (story_ids.take (count * 2)) []
  else []

/-- C4 (divergence witness): with 3 ids where only item 2 lacks the `url`
key, requesting count 3 yields only 2 results — the detail fetch returns
`None` for item 2, so the loop's synthesize-a-link branch never sees it and
the item is skipped, not returned with its own page link.  The synthesize
branch fires only when the `url` key is present with a null value, as the
last conjunct shows. -/
theorem c4_missing_url_item_is_skipped :
    let items : Nat → Option HNItem := fun id =>
      if id = 1 then some ⟨JsonField.val "https://x1.example", JsonField.val "T1"⟩
      else if id = 2 then some ⟨JsonField.absent, JsonField.val "T2"⟩
      else if id = 3 then some ⟨JsonField.val "https://x3.example", JsonField.val "T3"⟩
      else none
    get_hackernews_story_details items 2 = none ∧
    get_hackernews_stories_by_type items [1, 2, 3] "show" 3 none =
      [("https://x1.example", "T1", "hackernews-show"),
        ("https://x3.example", "T3", "hackernews-show")] ∧
    (get_hackernews_stories_by_type items [1, 2, 3] "show" 3 none).length = 2 ∧
    get_hackernews_stories_by_type
        (fun _ => some ⟨JsonField.null, JsonField.val "T2"⟩) [2] "show" 1 none =
      [("https://news.ycombinator.com/item?id=2", "T2", "hackernews-show")] := by
  decide

/- ===================================================================
   Section 4: Linkwarden bookmark client
   (src/utils.py lines 135-201).
   =================================================================== -/

/-- Bookmark entry as decoded from the Linkwarden listing endpoint: only the
two fields the client reads. -/
structure LWLink where
  url : JsonField
  title : JsonField
deriving Repr, DecidableEq

/-- Embedding of the validity filter (src/utils.py lines 174-176): keep the
links whose `url` and `title` values are both truthy. -/
def linkwarden_valid (all_links : List LWLink) : List LWLink :=
  all_links.filter (fun l => optTruthy l.url.get && optTruthy l.title.get)

/-- Tuple the client appends for one selected link
(src/utils.py line 192). -/
def lw_entry (l : LWLink) : String × String × String :=
  (l.url.get.getD "", l.title.get.getD "", "linkwarden")

/-- Embedding of `get_random_linkwarden_links` (src/utils.py lines 135-201).
`all_links` is the decoded listing response; `sample` is the `random.sample`
oracle, consulted only when more valid links exist than requested
(lines 178-183); each selected link is then dropped when the optional
existence check reports its url present (lines 185-194). -/
def get_random_linkwarden_links (all_links : List LWLink) (count : Nat)
    (sample : List LWLink → Nat → List LWLink)
    (exf : Option (String → Bool)) : List (String × String × String) :=
  let valid_links := linkwarden_valid all_links
  let selected_links :=
    if valid_links.length ≤ count then valid_links else sample valid_links count
  selected_links.foldl
    (fun results link =>
      if exists_check exf (link.url.get.getD "") then results
      else results ++ [lw_entry link]) []

/-- Helper: with no existence check every selected link is kept, in order. -/
theorem lw_foldl_none : ∀ (l : List LWLink) (acc : List (String × String × String)),
    l.foldl
      (fun results link =>
        if exists_check none (link.url.get.getD "") then results
        else results ++ [lw_entry link]) acc = acc ++ l.map lw_entry := by
  intro l
  induction l with
  | nil => intro acc; simp
  | cons x rest ih =>
    intro acc
    rw [List.foldl_cons, ih]
    simp [exists_check]

/-- C7 counterexample: one valid bookmark whose url the existence check
reports as already recorded, with count 10: the client returns the empty
list, not "exactly those valid bookmarks", because selection is followed by
the per-link existence filter. -/
theorem c7_linkwarden_counterexample :
    let links : List LWLink := [⟨JsonField.val "https://a.example", JsonField.val "A"⟩]
    (linkwarden_valid links).length = 1 ∧ (linkwarden_valid links).length ≤ 10 ∧
    get_random_linkwarden_links links 10 (fun l _ => l) (some (fun _ => true)) = [] := by
  decide

/-- C7 (amended): with no existence check supplied, the client returns
exactly the valid bookmarks, in listing order and unsampled, whenever at
most `count` are valid; when more than `count` are valid it returns exactly
the links chosen by the sampling oracle. -/
theorem c7_linkwarden_returns_valid (all_links : List LWLink) (count : Nat)
    (sample : List LWLink → Nat → List LWLink) :
    ((linkwarden_valid all_links).length ≤ count →
      get_random_linkwarden_links all_links count sample none =
        (linkwarden_valid all_links).map lw_entry) ∧
    (count < (linkwarden_valid all_links).length →
      get_random_linkwarden_links all_links count sample none =
        (sample (linkwarden_valid all_links) count).map lw_entry) := by
  constructor
  · intro hle
    simp only [get_random_linkwarden_links, if_pos hle]
    simpa using lw_foldl_none (linkwarden_valid all_links) []
  · intro hgt
    have hle : ¬ ((linkwarden_valid all_links).length ≤ count) := by omega
    simp only [get_random_linkwarden_links, if_neg hle]
    simpa using lw_foldl_none (sample (linkwarden_valid all_links) count) []

/-- Witness for C7: five valid bookmarks with count 10 come back exactly and
in order; three valid bookmarks with count 2 and a take-based sampler come
back as the two sampled. -/
theorem c7_linkwarden_returns_valid_witness :
    ((linkwarden_valid [⟨JsonField.val "https://l1.example", JsonField.val "B1"⟩,
        ⟨JsonField.val "https://l2.example", JsonField.val "B2"⟩,
        ⟨JsonField.val "https://l3.example", JsonField.val "B3"⟩,
        ⟨JsonField.val "https://l4.example", JsonField.val "B4"⟩,
        ⟨JsonField.val "https://l5.example", JsonField.val "B5"⟩]).length ≤ 10 ∧
      get_random_linkwarden_links
        [⟨JsonField.val "https://l1.example", JsonField.val "B1"⟩,
          ⟨JsonField.val "https://l2.example", JsonField.val "B2"⟩,
          ⟨JsonField.val "https://l3.example", JsonField.val "B3"⟩,
          ⟨JsonField.val "https://l4.example", JsonField.val "B4"⟩,
          ⟨JsonField.val "https://l5.example", JsonField.val "B5"⟩] 10
        (fun l _ => l) none =
        [("https://l1.example", "B1", "linkwarden"),
          ("https://l2.example", "B2", "linkwarden"),
          ("https://l3.example", "B3", "linkwarden"),
          ("https://l4.example", "B4", "linkwarden"),
          ("https://l5.example", "B5", "linkwarden")]) ∧
    (2 < (linkwarden_valid [⟨JsonField.val "https://l1.example", JsonField.val "B1"⟩,
        ⟨JsonField.val "https://l2.example", JsonField.val "B2"⟩,
        ⟨JsonField.val "https://l3.example", JsonField.val "B3"⟩]).length ∧
      get_random_linkwarden_links
        [⟨JsonField.val "https://l1.example", JsonField.val "B1"⟩,
          ⟨JsonField.val "https://l2.example", JsonField.val "B2"⟩,
          ⟨JsonField.val "https://l3.example", JsonField.val "B3"⟩] 2
        (fun l n => l.take n) none =
        [("https://l1.example", "B1", "linkwarden"),
          ("https://l2.example", "B2", "linkwarden")]) := by
  refine ⟨⟨by decide, ?_⟩, ⟨by decide, ?_⟩⟩
  · have h := (c7_linkwarden_returns_valid
      [⟨JsonField.val "https://l1.example", JsonField.val "B1"⟩,
        ⟨JsonField.val "https://l2.example", JsonField.val "B2"⟩,
        ⟨JsonField.val "https://l3.example", JsonField.val "B3"⟩,
        ⟨JsonField.val "https://l4.example", JsonField.val "B4"⟩,
        ⟨JsonField.val "https://l5.example", JsonField.val "B5"⟩] 10
      (fun l _ => l)).1 (by decide)
    rw [h]
    decide
  · have h := (c7_linkwarden_returns_valid
      [⟨JsonField.val "https://l1.example", JsonField.val "B1"⟩,
        ⟨JsonField.val "https://l2.example", JsonField.val "B2"⟩,
        ⟨JsonField.val "https://l3.example", JsonField.val "B3"⟩] 2
      (fun l n => l.take n)).2 (by decide)
    rw [h]
    decide

/- ===================================================================
   Section 5: English-language classifier
   (src/utils.py lines 210-253 and 256-433).
   =================================================================== -/

/-- Loaded page as the classifier interacts with it: whether some call in
the detection body raises, the result of `query_selector("html")` together
with its `lang` attribute (outer `none`: no `html` element; inner `none`:
element without the attribute), the `text_content()` values returned by
`query_selector_all` per content selector, and the `text_content()` values
of the navigation links matched by `"nav a, .nav a, .menu a, header a"`. -/
structure Page where
  raises : Bool
  htmlLang : Option (Option String)
  elems : String → List (Option String)
  navLinks : List (Option String)

/-- Python `s.lower()` modelled character-wise. -/
def py_lower (s : String) : String :=
  String.mk (s.toList.map Char.toLower)

/-- Python `s.startswith(p)` modelled on character lists. -/
def py_starts_with (s p : String) : Bool :=
  p.toList.isPrefixOf s.toList

/-- Substring test on character lists, modelling Python `needle in hay`. -/
def contains_sub (needle hay : List Char) : Bool :=
  (List.range (hay.length + 1)).any (fun i => needle.isPrefixOf (hay.drop i))

/-- Substring test on strings, modelling Python `needle in hay`. -/
def str_contains (needle hay : String) : Bool :=
  contains_sub needle.toList hay.toList

/-- Word list of check 2 (src/utils.py lines 273-302). -/
def english_title_words : List String :=
  ["the", "and", "or", "but", "in", "on", "at", "to", "for", "of", "with",
    "by", "about", "home", "page", "blog", "site", "web", "news", "contact",
    "portfolio", "work", "project", "code", "tech", "development", "design",
    "digital"]

/-- Word list of check 3 (src/utils.py lines 330-379). -/
def common_english_words : List String :=
  ["the", "and", "or", "but", "in", "on", "at", "to", "for", "of", "with",
    "by", "this", "that", "are", "is", "was", "were", "be", "been", "have",
    "has", "had", "will", "would", "could", "should", "can", "may", "might",
    "must", "shall", "about", "after", "before", "during", "through", "over",
    "under", "above", "home", "page", "site", "website", "blog", "post",
    "article", "content"]

/-- Word list of check 4 (src/utils.py lines 411-420). -/
def english_nav_words : List String :=
  ["home", "about", "contact", "blog", "work", "portfolio", "projects",
    "services"]

/-- Selector list of check 3 (src/utils.py line 315). -/
def content_selectors : List String :=
  ["p", "h1", "h2", "h3", "nav", "main", "article"]

/-- Inner element walk of check 3 (src/utils.py lines 319-325): append each
truthy `text_content()` plus a space, stopping once the sample passes 500
characters. -/
def sample_from_elements : List (Option String) → String → String
  | [], sample => sample
  | e :: rest, sample =>
    let sample' :=
      match e with
      | none => sample
      | some t => if t == "" then sample else sample ++ t ++ " "
    if sample'.length > 500 then sample'
    else sample_from_elements rest sample'

/-- Outer selector walk of check 3 (src/utils.py lines 318-327): first 3
elements per selector, with the same 500-character cut-off between
selectors. -/
def build_sample_text_loop (elems : String → List (Option String)) :
    List String → String → String
  | [], sample => sample
  | sel :: rest, sample =>
    let sample' := sample_from_elements ((elems sel).take 3) sample
    if sample'.length > 500 then sample'
    else build_sample_text_loop elems rest sample'

/-- Sample text gathered by check 3. -/
def build_sample_text (elems : String → List (Option String)) : String :=
  build_sample_text_loop elems content_selectors ""

/-- Check 3 of the classifier (src/utils.py lines 381-401): count common
English words appearing as ` word ` inside the space-padded lowered sample,
and compare against 20 percent of the word count capped at 50.  The Python
float comparison `(count / min(total, 50)) * 100 >= 20` is modelled exactly
over the naturals as `5 * count >= min total 50`; no claim sits on a float
rounding boundary. -/
def content_sample_is_english (elems : String → List (Option String)) : Bool :=
  let sample_text := build_sample_text elems
  if sample_text == "" then false
  else
    let sample_lower := py_lower sample_text
    let english_word_count :=
      (common_english_words.filter
        (fun w => str_contains (" " ++ w ++ " ") (" " ++ sample_lower ++ " "))).length
    let total_words :=
      ((sample_text.split (fun c => c.isWhitespace)).filter
        (fun w => !(w == ""))).length
    if 0 < total_words then
      if 5 * english_word_count ≥ min total_words 50 then true else false
    else false

/-- Navigation text of check 4 (src/utils.py lines 404-409): lowered truthy
link texts of the first 10 navigation links, space-joined. -/
def nav_text_of (navLinks : List (Option String)) : String :=
  (navLinks.take 10).foldl
    (fun acc e =>
      match e with
      | none => acc
      | some t => if t == "" then acc else acc ++ py_lower t ++ " ") ""

/-- Embedding of `detect_english_content` (src/utils.py lines 256-433).
The four checks run in order inside one `try`; any exception raised during
page interaction lands in the `except` branch, which returns `True`
("benefit of the doubt", lines 430-433) — modelled by the `raises` flag. -/
def detect_english_content (page : Page) (title : String) : Bool :=
  if page.raises then true
  else if
    (match page.htmlLang with
      | some (some lang_attr) => !(lang_attr == "") && py_starts_with (py_lower lang_attr) "en"
      | _ => false) then true
  else if
    2 ≤ (english_title_words.filter (fun w => str_contains w (py_lower title))).length
    then true
  else if content_sample_is_english page.elems then true
  else if
    2 ≤ (english_nav_words.filter
      (fun w => str_contains w (nav_text_of page.navLinks))).length then true
  else false

/-- Embedding of `check_512kb_site_is_english` (src/utils.py lines 210-253).
`fetched` is the outcome of the browser launch plus `page.goto`: `none`
means the outer fetch raised, landing in the handler that returns
`(False, None, "error")` (lines 248-253); otherwise the loaded page is
classified and mapped to `english_site` with a markdown fragment, or to
`non_english` (lines 235-246). -/
def check_512kb_site_is_english (fetched : Option Page) (url title : String) :
    Bool × Option String × String :=
  match fetched with
  | none => (false, none, "error")
  | some page =>
    if detect_english_content page title then
      (true, some ("## " ++ title ++ "\n\n- [" ++ title ++ "](" ++ url ++ ")\n\n"),
        "english_site")
    else (false, none, "non_english")

/-- C6: a page whose declared `lang` attribute is present and starts,
case-insensitively, with `en` is classified English whatever the title, the
content elements and the navigation links hold — the later checks are never
consulted. -/
theorem c6_lang_attr_short_circuits (page : Page) (title lang : String)
    (hattr : page.htmlLang = some (some lang))
    (hstart : py_starts_with (py_lower lang) "en" = true) :
    detect_english_content page title = true := by
  by_cases hr : page.raises
  · simp [detect_english_content, hr]
  · have hne : (lang == "") = false := by
      cases hl : lang == ""
      · rfl
      · have hempty : lang = "" := by simpa using hl
        rw [hempty] at hstart
        exact absurd hstart (by decide)
    simp [detect_english_content, hr, hattr, hne, hstart]

/-- Witness for C6: a page declaring `EN-us` with non-English title, content
and navigation is classified English. -/
theorem c6_lang_attr_short_circuits_witness :
    (some (some "EN-us") : Option (Option String)) = some (some "EN-us") ∧
    py_starts_with (py_lower "EN-us") "en" = true ∧
    detect_english_content
      ⟨false, some (some "EN-us"), fun _ => [some "旅行記"], [some "ホーム"]⟩
      "日記" = true :=
  ⟨rfl, by decide,
    c6_lang_attr_short_circuits
      ⟨false, some (some "EN-us"), fun _ => [some "旅行記"], [some "ホーム"]⟩
      "日記" "EN-us" rfl (by decide)⟩

/-- C5 counterexample: when the outer page fetch fails, the classification
verdict is `False`, not the claimed default of English; only the status
`error` is recorded. -/
theorem c5_outer_error_counterexample :
    (check_512kb_site_is_english none "https://x.example" "T").1 = false ∧
    (check_512kb_site_is_english none "https://x.example" "T").2.2 = "error" := by
  decide

/-- C5 (amended): an exception inside content detection yields the verdict
English and the persisted status `english_site`; a failure of the outer page
fetch yields the verdict `False` with status `error`; the two failure points
stay distinguishable in the persisted status. -/
theorem c5_failure_paths (page : Page) (url title : String) :
    (page.raises = true → detect_english_content page title = true) ∧
    (page.raises = true →
      check_512kb_site_is_english (some page) url title =
        (true, some ("## " ++ title ++ "\n\n- [" ++ title ++ "](" ++ url ++ ")\n\n"),
          "english_site")) ∧
    check_512kb_site_is_english none url title = (false, none, "error") ∧
    (page.raises = true →
      (check_512kb_site_is_english (some page) url title).2.2 ≠
        (check_512kb_site_is_english none url title).2.2) := by
  refine ⟨?_, ?_, rfl, ?_⟩
  · intro hr
    simp [detect_english_content, hr]
  · intro hr
    simp [check_512kb_site_is_english, detect_english_content, hr]
  · intro hr
    simp [check_512kb_site_is_english, detect_english_content, hr]

/-- Witness for C5 at a concrete raising page. -/
theorem c5_failure_paths_witness :
    detect_english_content ⟨true, none, fun _ => [], []⟩ "T" = true ∧
    check_512kb_site_is_english (some ⟨true, none, fun _ => [], []⟩)
        "https://x.example" "T" =
      (true, some ("## T\n\n- [T](https://x.example)\n\n"), "english_site") ∧
    (check_512kb_site_is_english (some ⟨true, none, fun _ => [], []⟩)
        "https://x.example" "T").2.2 ≠
      (check_512kb_site_is_english none "https://x.example" "T").2.2 :=
  ⟨(c5_failure_paths ⟨true, none, fun _ => [], []⟩ "https://x.example" "T").1 rfl,
    (c5_failure_paths ⟨true, none, fun _ => [], []⟩ "https://x.example" "T").2.1 rfl,
    (c5_failure_paths ⟨true, none, fun _ => [], []⟩ "https://x.example" "T").2.2.2 rfl⟩

/- ===================================================================
   Section 6: full site record, language back-fill and schema migration
   (src/utils.py lines 606-627, src/app.py lines 91-140).
   =================================================================== -/

/-- Full row of the `sites` table after the language columns were added:
`url, title, source, capture_date` plus the four language-status columns
written by the back-fill (`has_blog, blog_status, blog_posts_md,
last_blog_check`).  Timestamps are abstracted to numbers; nullable columns
are options. -/
structure SiteRec where
  url : String
  title : Option String
  source : Option String
  capture_date : Option Nat
  has_blog : Option Bool
  blog_status : Option String
  blog_posts_md : Option String
  last_blog_check : Option Nat
deriving Repr, DecidableEq

/-- Embedding of `update_site_english_status` (src/utils.py lines 606-627):
`UPDATE sites SET has_blog = ?, blog_status = ?, blog_posts_md = ?,
last_blog_check = ? WHERE url = ?`, `now` being the timestamp taken at
line 615. -/
def update_site_english_status (store : List SiteRec) (url : String)
    (is_english : Bool) (status : String) (posts_md : Option String)
    (now : Nat) : List SiteRec :=
  store.map (fun r =>
    if r.url = url then
      { r with
        has_blog := some is_english
        blog_status := some status
        blog_posts_md := posts_md
        last_blog_check := some now }
    else r)

/-- State of the `sites` table as `init_database` inspects it: whether the
table exists, whether its `source` column exists, and its rows.  In any
reachable state a missing table carries no rows, and a missing `source`
column means every row's `source` field reads NULL. -/
structure SitesDb where
  table_exists : Bool
  has_source_column : Bool
  rows : List SiteRec
deriving Repr, DecidableEq

/-- Embedding of `init_database` (src/app.py lines 91-140): create the table
when it is missing (lines 107-117); otherwise, when the `source` column is
missing, `ALTER TABLE sites ADD COLUMN source TEXT` and backfill
`UPDATE sites SET source = '512kb.club' WHERE source IS NULL`
(lines 130-135); otherwise leave the table alone. -/
def init_database (db : SitesDb) : SitesDb :=
  if db.table_exists = false then
    { table_exists := true, has_source_column := true, rows := db.rows }
  else if db.has_source_column = false then
    { table_exists := true, has_source_column := true,
      rows := db.rows.map (fun r =>
        if r.source = none then { r with source := some "512kb.club" } else r) }
  else db

/-- C9 counterexample: running the migration over a pre-`source`-column
table rewrites the `source` field of an existing record from NULL to
`512kb.club`, so initialization/migration does mutate `source`. -/
theorem c9_migration_rewrites_source_counterexample :
    (init_database
        ⟨true, false,
          [⟨"https://a.example", some "A", none, some 0, none, none, none, none⟩]⟩).rows.map
        SiteRec.source = [some "512kb.club"] ∧
    (init_database
        ⟨true, false,
          [⟨"https://a.example", some "A", none, some 0, none, none, none, none⟩]⟩).rows.map
        SiteRec.source ≠
      [⟨"https://a.example", some "A", none, some 0, none, none, none,
          none⟩].map SiteRec.source := by
  decide

/-- C9 (amended): the language back-fill touches only the four language
columns — it deletes nothing and leaves every record's `url`, `title`,
`source` and `capture_date` unchanged, and records whose `url` differs from
the given one are untouched entirely; initialization/migration deletes
nothing and never rewrites `url` or `capture_date`, though the
source-column migration does backfill NULL `source` fields with
`512kb.club`. -/
theorem c9_frame_preservation (store : List SiteRec) (url : String)
    (is_english : Bool) (status : String) (posts_md : Option String)
    (now : Nat) (db : SitesDb) :
    ((update_site_english_status store url is_english status posts_md now).map
        (fun r => (r.url, r.title, r.source, r.capture_date)) =
      store.map (fun r => (r.url, r.title, r.source, r.capture_date))) ∧
    ((update_site_english_status store url is_english status posts_md now).length =
      store.length) ∧
    (∀ r ∈ store, r.url ≠ url →
      r ∈ update_site_english_status store url is_english status posts_md now) ∧
    ((init_database db).rows.map (fun r => (r.url, r.capture_date)) =
      db.rows.map (fun r => (r.url, r.capture_date))) ∧
    ((init_database db).rows.length = db.rows.length) := by
  refine ⟨?_, ?_, ?_, ?_, ?_⟩
  · rw [update_site_english_status, List.map_map]
    apply List.map_congr_left
    intro r _
    by_cases h : r.url = url <;> simp [h]
  · simp [update_site_english_status]
  · intro r hr hne
    rw [update_site_english_status]
    have : (if r.url = url then
        { r with
          has_blog := some is_english
          blog_status := some status
          blog_posts_md := posts_md
          last_blog_check := some now }
      else r) = r := by simp [hne]
    rw [← this]
    exact List.mem_map_of_mem _ hr
  · rw [init_database]
    by_cases h1 : db.table_exists = false
    · simp [h1]
    · by_cases h2 : db.has_source_column = false
      · simp only [if_neg h1, if_pos h2, List.map_map]
        apply List.map_congr_left
        intro r _
        by_cases h : r.source = none <;> simp [h]
      · simp [h1, h2]
  · rw [init_database]
    by_cases h1 : db.table_exists = false
    · simp [h1]
    · by_cases h2 : db.has_source_column = false
      · simp [if_neg h1, if_pos h2]
      · simp [h1, h2]

/-- Witness for C9 at a concrete store, back-fill and migration. -/
theorem c9_frame_preservation_witness :
    ((update_site_english_status
        [⟨"https://a.example", some "A", some "512kb.club", some 1, none, none, none, none⟩,
          ⟨"https://b.example", some "B", some "512kb.club", some 2, none, none, none, none⟩]
        "https://a.example" true "english_site" (some "md") 7).map
        (fun r => (r.url, r.title, r.source, r.capture_date)) =
      [("https://a.example", some "A", some "512kb.club", some 1),
        ("https://b.example", some "B", some "512kb.club", some 2)]) ∧
    (⟨"https://b.example", some "B", some "512kb.club", some 2, none, none, none, none⟩ ∈
      update_site_english_status
        [⟨"https://a.example", some "A", some "512kb.club", some 1, none, none, none, none⟩,
          ⟨"https://b.example", some "B", some "512kb.club", some 2, none, none, none, none⟩]
        "https://a.example" true "english_site" (some "md") 7) ∧
    ((init_database
        ⟨true, false,
          [⟨"https://a.example", some "A", none, some 1, none, none, none, none⟩]⟩).rows.map
        (fun r => (r.url, r.capture_date)) = [("https://a.example", some 1)]) := by
  have h := c9_frame_preservation
    [⟨"https://a.example", some "A", some "512kb.club", some 1, none, none, none, none⟩,
      ⟨"https://b.example", some "B", some "512kb.club", some 2, none, none, none, none⟩]
    "https://a.example" true "english_site" (some "md") 7
    ⟨true, false, [⟨"https://a.example", some "A", none, some 1, none, none, none, none⟩]⟩
  refine ⟨?_, ?_, ?_⟩
  · rw [h.1]
    decide
  · exact h.2.2.1
      ⟨"https://b.example", some "B", some "512kb.club", some 2, none, none, none, none⟩
      (by decide) (by decide)
  · rw [h.2.2.2.1]
    decide
